import Mathlib

/-!
Verification of the text-to-CAD inference pipeline of `src/web_demo/ml_backend.py`.

The Python module is embedded shallowly:

* String scanning primitives mirror the semantics of the specific `re` patterns
  the module uses.  Every regex in the module is of a restricted form (literal
  words, `\d+`, `\s+`, `\w+`, and alternations of literal words whose required
  character classes are pairwise disjoint at each backtracking point), so
  `re.search` on them is equivalent to a left-to-right scan that, at each start
  position, consumes maximal runs for `\d+` / `\s+` / `\w+` and tries the
  alternation branches in declaration order.  The scan functions below
  implement exactly that.
* Numeric fields use `ℚ` for Python floats; all constants appearing in the
  module (0.1, 0.3, 1.5, 2.5, 4.2, ...) are exact in `ℚ`.
* `TextToCADModel.predict`'s statistical branch calls into sklearn models; the
  raw model outputs (shape label, raw size/radius/height regressions, top-class
  probability) are abstracted as parameters of `statPredict`, which embeds the
  post-processing on lines 121-140.  The deterministic
  `TextToCADModel.rule_based_parse` is embedded in full.
* `MultiObjectParser` is embedded parametrically over the single-phrase
  predictor (`Pred`), since `parse` only composes predictor calls.
-/

namespace MLBackend

/-! ### Character and string primitives -/

/-- Python `str.lower` restricted to ASCII, which covers every input and every
vocabulary word occurring in the module. -/
def lowerChar (c : Char) : Char :=
  if 'A' ≤ c ∧ c ≤ 'Z' then Char.ofNat (c.toNat + 32) else c

/-- Python `text.lower()`. -/
def lowerStr (s : String) : String := String.mk (s.data.map lowerChar)

/-- Python regex `\s` (the whitespace characters of `str.strip` as well). -/
def isSpacePy (c : Char) : Bool :=
  c == ' ' || c == '\t' || c == '\n' || c == '\r' || c == Char.ofNat 11 || c == Char.ofNat 12

/-- Python regex `\w` on ASCII input. -/
def isWordChar (c : Char) : Bool := c.isAlpha || c.isDigit || c == '_'

/-- Does `cs` start with the literal pattern `pat`? -/
def startsWith : List Char → List Char → Bool
  | [], _ => true
  | _ :: _, [] => false
  | p :: ps, c :: cs => p == c && startsWith ps cs

/-- Left-to-right scan: does `f` accept some suffix of `cs` (including the
empty suffix, as `re.search` also tries the end position)? -/
def scanAny (f : List Char → Bool) : List Char → Bool
  | [] => f []
  | c :: cs => f (c :: cs) || scanAny f cs

/-- Python `pat in text` / `re.search` on a literal pattern. -/
def containsSub (pat : List Char) (cs : List Char) : Bool :=
  scanAny (startsWith pat) cs

/-- Left-to-right scan returning the leftmost accepted suffix's result. -/
def scanFirst {α : Type} (f : List Char → Option α) : List Char → Option α
  | [] => f []
  | c :: cs =>
    match f (c :: cs) with
    | some r => some r
    | none => scanFirst f cs

/-- Numeric value of a decimal digit character. -/
def charVal (c : Char) : Nat := c.toNat - 48

/-- Python `int` on a nonempty string of decimal digits. -/
def digitsVal (ds : List Char) : Nat := ds.foldl (fun a c => 10 * a + charVal c) 0

/-- Python `part.strip()`. -/
def strip (cs : List Char) : List Char :=
  ((cs.dropWhile isSpacePy).reverse.dropWhile isSpacePy).reverse

/-- Worker of `splitAnd`: `acc` is the current chunk (reversed) and `skip`
the number of separator characters still to be consumed after a match (the
resumption point of Python's non-overlapping leftmost split). -/
def splitAndGo (acc : List Char) (skip : Nat) : List Char → List (List Char)
  | [] => [acc.reverse]
  | c :: cs =>
    match skip with
    | s + 1 => splitAndGo acc s cs
    | 0 =>
      if startsWith (' ' :: 'a' :: 'n' :: 'd' :: [' ']) (c :: cs) then
        acc.reverse :: splitAndGo [] 4 cs
      else
        splitAndGo (c :: acc) 0 cs

/-- Python `text.split(' and ')` (leftmost, non-overlapping). -/
def splitAnd (cs : List Char) : List (List Char) := splitAndGo [] 0 cs

/-! ### The regex patterns of `MultiObjectParser` -/

/-- Alternation of `ml_backend.py` line 270, in declaration order. -/
def nounList : List String :=
  ["sphere", "cube", "cylinder", "cone", "torus", "ball", "box", "tube"]

/-- First alternation branch of line 270 that matches at this position
(group 2 of the quantity pattern; the trailing `s?` never fails). -/
def firstNoun (cs : List Char) : Option String :=
  nounList.find? (fun w => startsWith w.data cs)

/-- Match `(\d+)\s+(sphere|cube|cylinder|cone|torus|ball|box|tube)s?` at this
position, returning `(int(group 1), group 2)`. -/
def tryQuantityAt (cs : List Char) : Option (Nat × String) :=
  let ds := cs.takeWhile Char.isDigit
  if ds.isEmpty then none
  else
    let r1 := cs.dropWhile Char.isDigit
    if (r1.takeWhile isSpacePy).isEmpty then none
    else (firstNoun (r1.dropWhile isSpacePy)).map (fun w => (digitsVal ds, w))

/-- `re.search` of the quantity pattern (line 270). -/
def quantityMatch : List Char → Option (Nat × String) := scanFirst tryQuantityAt

/-- Alternation of the detection pattern on line 244. -/
def pluralList : List String := ["spheres", "cubes", "cylinders", "cones"]

/-- Space run followed by one of the plural nouns (tail of line 244's
pattern after the digits). -/
def afterCountDigits (r1 : List Char) : Bool :=
  !(r1.takeWhile isSpacePy).isEmpty &&
    pluralList.any (fun w => startsWith w.data (r1.dropWhile isSpacePy))

/-- Match `\d+\s+(spheres|cubes|cylinders|cones)` at this position. -/
def tryCountPluralAt (cs : List Char) : Bool :=
  !(cs.takeWhile Char.isDigit).isEmpty && afterCountDigits (cs.dropWhile Char.isDigit)

/-- `re.search` of the detection pattern on line 244. -/
def countPluralPat : List Char → Bool := scanAny tryCountPluralAt

/-- First character satisfies `p`. -/
def headIs (p : Char → Bool) : List Char → Bool
  | [] => false
  | c :: _ => p c

/-- Match `and\s+(?:a|an)` at this position (the alternation succeeds exactly
when the next character is `a`). -/
def tryAndAAt (cs : List Char) : Bool :=
  startsWith ['a', 'n', 'd'] cs &&
    (let r := cs.drop 3
     !(r.takeWhile isSpacePy).isEmpty && headIs (fun c => c == 'a') (r.dropWhile isSpacePy))

/-- `re.search(r'and\s+(?:a|an)', text)` (line 245). -/
def andAPat : List Char → Bool := scanAny tryAndAAt

/-- Match `with\s+(?:a|an|\d+)` at this position. -/
def tryWithAt (cs : List Char) : Bool :=
  startsWith ['w', 'i', 't', 'h'] cs &&
    (let r := cs.drop 4
     !(r.takeWhile isSpacePy).isEmpty &&
       headIs (fun c => c == 'a' || c.isDigit) (r.dropWhile isSpacePy))

/-- `re.search(r'with\s+(?:a|an|\d+)', text)` (line 246). -/
def withPat : List Char → Bool := scanAny tryWithAt

/-- Match `stack\s+(\d+)\s+(\w+)` at this position, returning
`(int(group 1), group 2)`. -/
def tryStackAt (cs : List Char) : Option (Nat × String) :=
  if startsWith ['s', 't', 'a', 'c', 'k'] cs then
    let r := cs.drop 5
    if (r.takeWhile isSpacePy).isEmpty then none
    else
      let r2 := r.dropWhile isSpacePy
      let ds := r2.takeWhile Char.isDigit
      if ds.isEmpty then none
      else
        let r3 := r2.dropWhile Char.isDigit
        if (r3.takeWhile isSpacePy).isEmpty then none
        else
          let r4 := r3.dropWhile isSpacePy
          let ws := r4.takeWhile isWordChar
          if ws.isEmpty then none else some (digitsVal ds, String.mk ws)
  else none

/-- `re.search` of the stacking pattern (line 313). -/
def stackMatch : List Char → Option (Nat × String) := scanFirst tryStackAt

/-! ### Data model -/

/-- A 3-D position (the `{"x": .., "y": .., "z": ..}` dicts). -/
structure Pos where
  x : ℚ
  y : ℚ
  z : ℚ
deriving DecidableEq, Repr

/-- A shape-parameter record, the dict produced by `TextToCADModel.predict`
and mutated by `MultiObjectParser`. -/
structure Obj where
  shape : String
  size : ℚ
  radius : ℚ
  height : ℚ
  color : Nat
  position : Pos
  confidence : ℚ
deriving DecidableEq, Repr

/-- A single-phrase predictor (`TextToCADModel.predict` as seen by
`MultiObjectParser`). -/
def Pred : Type := String → Obj

/-! ### `TextToCADModel` -/

/-- The `color_map` dict of `find_similar_color` (lines 147-153), in
declaration order. -/
def color_map : List (String × Nat) :=
  [("red", 0xff4444), ("blue", 0x4444ff), ("green", 0x44ff44),
   ("yellow", 0xffff44), ("purple", 0xff44ff), ("orange", 0xff8844),
   ("cyan", 0x44ffff), ("white", 0xffffff), ("black", 0x222222),
   ("pink", 0xff88cc), ("brown", 0x8b4513), ("gray", 0x888888),
   ("grey", 0x888888)]

/-- The `for color_name, hex_value in color_map.items()` loop. -/
def findColorIn : List (String × Nat) → List Char → Nat
  | [], _ => 0x667eea
  | (name, v) :: rest, tl =>
    if containsSub name.data tl then v else findColorIn rest tl

/-- `TextToCADModel.find_similar_color` (lines 142-159). -/
def find_similar_color (text : String) : Nat :=
  findColorIn color_map (lowerStr text).data

/-- Python `any(word in text_lower for word in ws)`. -/
def anyWordIn (ws : List String) (tl : List Char) : Bool :=
  ws.any (fun w => containsSub w.data tl)

/-- Shape branch of `rule_based_parse` (lines 166-177). -/
def ruleShape (tl : List Char) : String :=
  if anyWordIn ["sphere", "ball", "orb", "globe"] tl then "sphere"
  else if anyWordIn ["cube", "box", "block", "square"] tl then "cube"
  else if anyWordIn ["cylinder", "tube", "pipe", "column"] tl then "cylinder"
  else if anyWordIn ["cone", "pyramid", "triangle"] tl then "cone"
  else if anyWordIn ["torus", "donut", "ring"] tl then "torus"
  else "sphere"

/-- Size branch of `rule_based_parse` (lines 180-185). -/
def ruleSize (tl : List Char) : ℚ :=
  if anyWordIn ["large", "big", "huge"] tl then 2
  else if anyWordIn ["small", "tiny", "little"] tl then 0.5
  else 1

/-- `TextToCADModel.rule_based_parse` (lines 161-195). -/
def rule_based_parse (text : String) : Obj :=
  let tl := (lowerStr text).data
  let shape := ruleShape tl
  let size := ruleSize tl
  { shape := shape
    size := size
    radius := size
    height := if shape == "cylinder" || shape == "cone" then 2.5 else 2
    color := find_similar_color text
    position := ⟨0, 0, 0⟩
    confidence := 0.7 }

/-- The statistical branch of `TextToCADModel.predict` (lines 117-140).  The
sklearn models are external; their raw outputs — predicted shape label, raw
size/radius/height regressions, and the classifier's top posterior — enter as
the parameters `rawShape`, `rawSize`, `rawRadius`, `rawHeight`, `conf`.  The
definition embeds the module's own post-processing of those raw outputs. -/
def statPredict (text : String) (rawShape : String)
    (rawSize rawRadius rawHeight conf : ℚ) : Obj :=
  { shape := rawShape
    size := max 0.1 rawSize
    radius := max 0.1 rawRadius
    height := max 0.1 rawHeight
    color := find_similar_color text
    position := ⟨0, 0, 0⟩
    confidence := conf }

/-! ### `MultiObjectParser` -/

/-- `MultiObjectParser.is_multi_object` (lines 240-254): the patterns of
`multi_indicators` in declaration order, any match triggering. -/
def is_multi_object (s : String) : Bool :=
  let cs := s.data
  countPluralPat cs || andAPat cs || withPat cs ||
    containsSub "stack".data cs || containsSub "multiple".data cs ||
    containsSub "several".data cs || containsSub "above".data cs ||
    containsSub "below".data cs || containsSub "next to".data cs ||
    containsSub "on top".data cs

/-- The `composite_shapes` dict (lines 283-300), in declaration order. -/
def composite_shapes : List (String × List (String × Pos × ℚ)) :=
  [("house",
    [("cube walls", ⟨0, 0, 0⟩, 3),
     ("cone roof", ⟨0, 2, 0⟩, 1.5)]),
   ("table",
    [("cube top", ⟨0, 2, 0⟩, 1),
     ("cylinder leg", ⟨-1.5, 0, -1.5⟩, 0.3),
     ("cylinder leg", ⟨1.5, 0, -1.5⟩, 0.3),
     ("cylinder leg", ⟨-1.5, 0, 1.5⟩, 0.3),
     ("cylinder leg", ⟨1.5, 0, 1.5⟩, 0.3)]),
   ("snowman",
    [("large sphere", ⟨0, 0, 0⟩, 2),
     ("sphere", ⟨0, 2.5, 0⟩, 1.5),
     ("small sphere", ⟨0, 4.2, 0⟩, 1)])]

/-- The `for composite_name, parts in composite_shapes.items()` loop
(lines 302-303): first composite whose name occurs as a substring. -/
def compositeMatch (cs : List Char) : Option (List (String × Pos × ℚ)) :=
  (composite_shapes.find? (fun p => containsSub p.1.data cs)).map (fun p => p.2)

/-- The stacking loop (lines 318-323): cumulative `y_offset`, incremented by
`obj['size'] * 2` after each object. -/
def stackObjs (pred : Pred) (word : String) : Nat → ℚ → List Obj
  | 0, _ => []
  | n + 1, y =>
    let o := pred word
    { o with position := ⟨0, y, 0⟩ } :: stackObjs pred word n (y + o.size * 2)

/-- `MultiObjectParser.extract_multiple_objects` (lines 256-330): the four
extraction patterns tried in order, then the single-object fallback. -/
def extract_multiple_objects (pred : Pred) (text : String) : List Obj :=
  if containsSub " and ".data text.data then
    (splitAnd text.data).enum.map (fun p =>
      let o := pred (String.mk (strip p.2))
      { o with position := ⟨(p.1 : ℚ) * 2, 0, 0⟩ })
  else
    match quantityMatch text.data with
    | some (count, shapeText) =>
      (List.range (min count 10)).map (fun (i : Nat) =>
        let o := pred shapeText
        { o with position := ⟨(i : ℚ) * 2 - (count : ℚ), 0, 0⟩ })
    | none =>
      match compositeMatch text.data with
      | some parts =>
        parts.map (fun part =>
          let o := pred part.1
          { o with
              position := part.2.1
              size := o.size * part.2.2
              radius := o.radius * part.2.2 })
      | none =>
        match stackMatch text.data with
        | some (count, word) => stackObjs pred word (min count 10) 0
        | none => [pred text]

/-- `MultiObjectParser.parse` (lines 225-238): lower-case, detect, and either
extract several objects from the lowered text or predict the original text as
a single object. -/
def parse (pred : Pred) (text : String) : List Obj :=
  if is_multi_object (lowerStr text) then
    extract_multiple_objects pred (lowerStr text)
  else
    [pred text]

/-! ### HTTP boundary (`parse_text`, lines 339-371) -/

/-- Outcome of the `/parse-text` handler on the paths the claims concern:
either the 200 response body or the 400 error body. -/
inductive HttpResp where
  | ok (objects : List Obj) (count : Nat) (interpretation : String) (mlPowered : Bool)
  | badRequest (error : String)
deriving DecidableEq

/-- The `parse_text` handler (lines 339-371).  `textField` models
`data.get('text', '')`: `none` when the key is missing.  The guard
`if not text` rejects the missing and the empty case before `parser.parse`
is ever consulted. -/
def parse_text (pred : Pred) (mlPowered : Bool) (textField : Option String) : HttpResp :=
  let text := textField.getD ""
  if text = "" then HttpResp.badRequest "No text provided"
  else
    let objs := parse pred text
    HttpResp.ok objs objs.length
      ("Generated " ++ toString objs.length ++ " object(s)") mlPowered

/-! ### Training corpus (`retrain`, lines 382-399) -/

/-- A training example (the dicts of `training_data`). -/
structure ShapeExample where
  text : String
  shape : String
  size : ℚ
  radius : ℚ
  height : ℚ
  color : Nat
  position : List ℚ
deriving DecidableEq

/-- Effect of one `/retrain` call on `model.training_data` (lines 387-392):
append the example when one is supplied, otherwise leave the corpus alone. -/
def retrainCorpus (corpus : List ShapeExample) (ex : Option ShapeExample) :
    List ShapeExample :=
  match ex with
  | some e => corpus ++ [e]
  | none => corpus

/-- The three HTTP endpoints of the module, as corpus-affecting requests. -/
inductive Request where
  | parseTextReq (textField : Option String)
  | healthReq
  | retrainReq (ex : Option ShapeExample)

/-- Effect of one request on `model.training_data`: `parse_text` and `health`
read but never mutate it (the interaction dict built on lines 353-357 is
discarded); only `retrain` appends. -/
def corpusStep (corpus : List ShapeExample) : Request → List ShapeExample
  | Request.parseTextReq _ => corpus
  | Request.healthReq => corpus
  | Request.retrainReq ex => retrainCorpus corpus ex

/-! ### Decimal strings of arbitrary counts (for the quantity claims) -/

/-- The decimal digit characters. -/
def digitChar : Nat → Char
  | 0 => '0'
  | 1 => '1'
  | 2 => '2'
  | 3 => '3'
  | 4 => '4'
  | 5 => '5'
  | 6 => '6'
  | 7 => '7'
  | 8 => '8'
  | _ => '9'

/-- The decimal representation of `n` as a character list (most significant
digit first). -/
def digitChars (n : Nat) : List Char := (Nat.digits 10 n).reverse.map digitChar

/-- The input "`n` `noun`", e.g. `countNounInput 3 "balls" = "3 balls"`. -/
def countNounInput (n : Nat) (noun : String) : String :=
  String.mk (digitChars n ++ ' ' :: noun.data)

/-! ### Helper lemmas -/

theorem stackObjs_length (pred : Pred) (word : String) :
    ∀ (n : Nat) (y : ℚ), (stackObjs pred word n y).length = n := by
  intro n
  induction n with
  | zero => intro y; rfl
  | succ n ih => intro y; simp [stackObjs, ih]

theorem findColorIn_of_get (tl : List Char) :
    ∀ (l : List (String × Nat)) (i : Nat) (k : String) (v : Nat),
      l.get? i = some (k, v) →
      containsSub k.data tl = true →
      (l.take i).all (fun p => !containsSub p.1.data tl) = true →
      findColorIn l tl = v := by
  intro l
  induction l with
  | nil => intro i k v h; simp at h
  | cons p l ih =>
    obtain ⟨name, v0⟩ := p
    intro i k v hget hc hall
    cases i with
    | zero =>
      rw [List.get?_cons_zero] at hget
      cases hget
      exact if_pos hc
    | succ i =>
      rw [List.get?_cons_succ] at hget
      rw [List.take_succ_cons, List.all_cons] at hall
      obtain ⟨h0, hrest⟩ := (Bool.and_eq_true _ _).mp hall
      have h0' : containsSub name.data tl = false := by simpa using h0
      show (if containsSub name.data tl = true then v0 else findColorIn l tl) = v
      rw [if_neg (by simp [h0'])]
      exact ih i k v hget hc hrest

theorem findColorIn_default (tl : List Char) :
    ∀ (l : List (String × Nat)),
      l.all (fun p => !containsSub p.1.data tl) = true →
      findColorIn l tl = 0x667eea := by
  intro l
  induction l with
  | nil => intro _; rfl
  | cons p l ih =>
    obtain ⟨name, v0⟩ := p
    intro hall
    rw [List.all_cons] at hall
    obtain ⟨h0, hrest⟩ := (Bool.and_eq_true _ _).mp hall
    have h0' : containsSub name.data tl = false := by simpa using h0
    show (if containsSub name.data tl = true then v0 else findColorIn l tl) = 0x667eea
    rw [if_neg (by simp [h0'])]
    exact ih hrest

theorem extract_quantity_eq (pred : Pred) (text : String) (c : Nat) (s : String)
    (h1 : containsSub " and ".data text.data = false)
    (h2 : quantityMatch text.data = some (c, s)) :
    extract_multiple_objects pred text =
      (List.range (min c 10)).map (fun (i : Nat) =>
        { pred s with position := ⟨(i : ℚ) * 2 - (c : ℚ), 0, 0⟩ }) := by
  unfold extract_multiple_objects
  rw [if_neg (by simp [h1]), h2]

theorem extract_stack_eq (pred : Pred) (text : String) (c : Nat) (w : String)
    (h1 : containsSub " and ".data text.data = false)
    (h2 : quantityMatch text.data = none)
    (h3 : compositeMatch text.data = none)
    (h4 : stackMatch text.data = some (c, w)) :
    extract_multiple_objects pred text = stackObjs pred w (min c 10) 0 := by
  unfold extract_multiple_objects
  rw [if_neg (by simp [h1]), h2, h3, h4]

theorem ruleSize_ge (tl : List Char) : (0.1 : ℚ) ≤ ruleSize tl := by
  unfold ruleSize
  split
  · norm_num
  · split <;> norm_num

theorem corpusStep_length_le (corpus : List ShapeExample) (r : Request) :
    corpus.length ≤ (corpusStep corpus r).length := by
  cases r with
  | parseTextReq t => exact le_refl _
  | healthReq => exact le_refl _
  | retrainReq ex =>
    cases ex with
    | none => exact le_refl _
    | some e => simp [corpusStep, retrainCorpus]

/-! ### The claims -/

/-- Claim C1, behavior of the code at the claimed input: for
`"cube and sphere"`, `is_multi_object` is false (the conjunction indicator
regex demands a literal `a`/`an` right after `and`), so `parse` returns a
single object — while `extract_multiple_objects`, had it been reached, would
have produced the two claimed objects. -/
theorem cube_and_sphere_single_object :
    is_multi_object (lowerStr "cube and sphere") = false
  ∧ (parse rule_based_parse "cube and sphere").length = 1
  ∧ (extract_multiple_objects rule_based_parse "cube and sphere").map
      (fun o => (o.shape, o.position)) =
      [("cube", ⟨0, 0, 0⟩), ("sphere", ⟨2, 0, 0⟩)] := by
  refine ⟨by decide, by decide, ?_⟩
  have e : (extract_multiple_objects rule_based_parse "cube and sphere").map
      (fun o => (o.shape, o.position)) =
      [((rule_based_parse (String.mk (strip "cube".data))).shape,
        ⟨((0 : Nat) : ℚ) * 2, 0, 0⟩),
       ((rule_based_parse (String.mk (strip "sphere".data))).shape,
        ⟨((1 : Nat) : ℚ) * 2, 0, 0⟩)] := rfl
  rw [e, show (rule_based_parse (String.mk (strip "cube".data))).shape = "cube"
        from by decide,
      show (rule_based_parse (String.mk (strip "sphere".data))).shape = "sphere"
        from by decide]
  norm_num

/-- Claim C2, counterexample to the claim as stated: the input `"house"`
matches no multi-object indicator, so the parser returns exactly one object,
not two. -/
theorem house_alone_single_object :
    (parse rule_based_parse "house").length = 1 := by decide

/-- Claim C2 as amended: for an input containing `"house"` that does trigger
multi-object detection and no earlier extraction pattern (such as
`"house with a door"`), the parser returns exactly 2 objects: the first is the
`"cube walls"` prediction with size and radius scaled by 3.0 at position
`{0,0,0}`, the second the `"cone roof"` prediction scaled by 1.5 at
`{0,2,0}`; heights are left unscaled. -/
theorem house_with_door_composite (pred : Pred) :
    parse pred "house with a door" =
      [{ pred "cube walls" with
          position := ⟨0, 0, 0⟩
          size := (pred "cube walls").size * 3
          radius := (pred "cube walls").radius * 3 },
       { pred "cone roof" with
          position := ⟨0, 2, 0⟩
          size := (pred "cone roof").size * 1.5
          radius := (pred "cone roof").radius * 1.5 }] := rfl

/-- Claim C3, behavior of the code at the claimed input: for
`"stack 3 cube"` the unanchored quantity regex matches `"3 cube"` first, so
the three objects are laid out along X at `-3, -1, 1` with every Y offset
equal to 0 — not stacked with strictly increasing Y — even though the
stacking pattern would also have matched. -/
theorem stack_three_cube_quantity_shadowed :
    (parse rule_based_parse "stack 3 cube").map (fun o => o.position) =
      [⟨-3, 0, 0⟩, ⟨-1, 0, 0⟩, ⟨1, 0, 0⟩]
  ∧ quantityMatch (lowerStr "stack 3 cube").data = some (3, "cube")
  ∧ stackMatch (lowerStr "stack 3 cube").data = some (3, "cube") := by
  refine ⟨?_, by decide, by decide⟩
  have e : (parse rule_based_parse "stack 3 cube").map (fun o => o.position) =
      [⟨((0 : Nat) : ℚ) * 2 - ((3 : Nat) : ℚ), 0, 0⟩,
       ⟨((1 : Nat) : ℚ) * 2 - ((3 : Nat) : ℚ), 0, 0⟩,
       ⟨((2 : Nat) : ℚ) * 2 - ((3 : Nat) : ℚ), 0, 0⟩] := rfl
  rw [e]
  norm_num

/-- Claim C4: for the input `"3 cubes"` and any single-phrase predictor that
classifies `"cube"` as a cube, the parser returns exactly 3 objects, all with
shape cube, at X positions `-3, -1, 1` (i.e. `i*2 - 3`) with Y=Z=0. -/
theorem three_cubes_row (pred : Pred) (h : (pred "cube").shape = "cube") :
    (parse pred "3 cubes").map (fun o => (o.shape, o.position)) =
      [("cube", ⟨-3, 0, 0⟩), ("cube", ⟨-1, 0, 0⟩), ("cube", ⟨1, 0, 0⟩)] := by
  have heval : (parse pred "3 cubes").map (fun o => (o.shape, o.position)) =
      [((pred "cube").shape, ⟨((0 : Nat) : ℚ) * 2 - ((3 : Nat) : ℚ), 0, 0⟩),
       ((pred "cube").shape, ⟨((1 : Nat) : ℚ) * 2 - ((3 : Nat) : ℚ), 0, 0⟩),
       ((pred "cube").shape, ⟨((2 : Nat) : ℚ) * 2 - ((3 : Nat) : ℚ), 0, 0⟩)] := rfl
  rw [heval, h]
  norm_num

/-- Witness for claim C4 at the concrete rule-based predictor. -/
theorem three_cubes_row_witness :
    (rule_based_parse "cube").shape = "cube"
  ∧ (parse rule_based_parse "3 cubes").map (fun o => (o.shape, o.position)) =
      [("cube", ⟨-3, 0, 0⟩), ("cube", ⟨-1, 0, 0⟩), ("cube", ⟨1, 0, 0⟩)] :=
  ⟨by decide, three_cubes_row rule_based_parse (by decide)⟩

/-- Claim C5: whenever the quantity pattern (respectively the stacking
pattern) is the extraction rule that fires and its parsed count exceeds 10,
`extract_multiple_objects` produces exactly 10 objects — the count is
silently truncated, not an error. -/
theorem count_capped_at_ten (pred : Pred) (text : String) (c : Nat)
    (s w : String) (hc : 10 < c) :
    (containsSub " and ".data text.data = false →
      quantityMatch text.data = some (c, s) →
      (extract_multiple_objects pred text).length = 10)
  ∧ (containsSub " and ".data text.data = false →
      quantityMatch text.data = none →
      compositeMatch text.data = none →
      stackMatch text.data = some (c, w) →
      (extract_multiple_objects pred text).length = 10) := by
  constructor
  · intro h1 h2
    rw [extract_quantity_eq pred text c s h1 h2, List.length_map,
      List.length_range]
    omega
  · intro h1 h2 h3 h4
    rw [extract_stack_eq pred text c w h1 h2 h3 h4, stackObjs_length]
    omega

/-- Witness for claim C5: a quantity request and a stacking request, each
with count 15, both yield exactly 10 objects. -/
theorem count_capped_at_ten_witness :
    (10 < 15
      ∧ (extract_multiple_objects rule_based_parse "15 cubes").length = 10)
  ∧ (extract_multiple_objects rule_based_parse "stack 15 towers").length = 10 :=
  ⟨⟨by norm_num,
    (count_capped_at_ten rule_based_parse "15 cubes" 15 "cube" "w"
      (by norm_num)).1 (by decide) (by decide)⟩,
   (count_capped_at_ten rule_based_parse "stack 15 towers" 15 "s" "towers"
      (by norm_num)).2 (by decide) (by decide) (by decide) (by decide)⟩

/-- Claim C6: predicted size, radius and height are each at least 0.1, both
in the statistical mode (whatever the raw sklearn regressions return) and in
the rule-based fallback mode. -/
theorem dims_at_least_tenth (text rawShape : String)
    (rawSize rawRadius rawHeight conf : ℚ) :
    ((0.1 : ℚ) ≤ (statPredict text rawShape rawSize rawRadius rawHeight conf).size
      ∧ (0.1 : ℚ) ≤ (statPredict text rawShape rawSize rawRadius rawHeight conf).radius
      ∧ (0.1 : ℚ) ≤ (statPredict text rawShape rawSize rawRadius rawHeight conf).height)
  ∧ ((0.1 : ℚ) ≤ (rule_based_parse text).size
      ∧ (0.1 : ℚ) ≤ (rule_based_parse text).radius
      ∧ (0.1 : ℚ) ≤ (rule_based_parse text).height) := by
  refine ⟨⟨le_max_left _ _, le_max_left _ _, le_max_left _ _⟩, ?_, ?_, ?_⟩
  · exact ruleSize_ge _
  · exact ruleSize_ge _
  · show (0.1 : ℚ) ≤
      (if ruleShape (lowerStr text).data == "cylinder"
          || ruleShape (lowerStr text).data == "cone" then (2.5 : ℚ) else 2)
    split <;> norm_num

/-- Claim C7: if the lower-cased text contains the `i`-th color keyword of the
fixed vocabulary and none of the earlier keywords, the resolved color is
exactly that keyword's RGB value, in the rule-based mode and in the
statistical mode alike; if no keyword of the vocabulary occurs, the color is
the fixed default `0x667eea`. -/
theorem color_keyword_resolution (text k : String) (v i : Nat) :
    ((color_map.get? i = some (k, v)
        ∧ containsSub k.data (lowerStr text).data = true
        ∧ (color_map.take i).all
            (fun p => !containsSub p.1.data (lowerStr text).data) = true) →
      (find_similar_color text = v
        ∧ (rule_based_parse text).color = v
        ∧ ∀ rawShape rawSize rawRadius rawHeight conf,
            (statPredict text rawShape rawSize rawRadius rawHeight conf).color = v))
  ∧ ((color_map.all (fun p => !containsSub p.1.data (lowerStr text).data) = true) →
      (find_similar_color text = 0x667eea
        ∧ (rule_based_parse text).color = 0x667eea
        ∧ ∀ rawShape rawSize rawRadius rawHeight conf,
            (statPredict text rawShape rawSize rawRadius rawHeight conf).color
              = 0x667eea)) := by
  constructor
  · rintro ⟨h1, h2, h3⟩
    have hfc : find_similar_color text = v :=
      findColorIn_of_get (lowerStr text).data color_map i k v h1 h2 h3
    exact ⟨hfc, hfc, fun _ _ _ _ _ => hfc⟩
  · intro h
    have hfc : find_similar_color text = 0x667eea :=
      findColorIn_default (lowerStr text).data color_map h
    exact ⟨hfc, hfc, fun _ _ _ _ _ => hfc⟩

/-- Witness for claim C7: `"blue cube"` resolves to blue's RGB value, and
`"plain"` (no color keyword) resolves to the default. -/
theorem color_keyword_resolution_witness :
    find_similar_color "blue cube" = 0x4444ff
  ∧ find_similar_color "plain" = 0x667eea :=
  ⟨((color_keyword_resolution "blue cube" "blue" 0x4444ff 1).1
      ⟨by decide, by decide, by decide⟩).1,
   ((color_keyword_resolution "plain" "" 0 0).2 (by decide)).1⟩

/-- Claim C8: when the request body's text field is missing or empty, the
`/parse-text` handler answers 400 with `{"error": "No text provided"}`, and
the predictor is never consulted (the response does not depend on it). -/
theorem parse_text_rejects_empty (pred pred' : Pred) (ml : Bool)
    (t : Option String) (h : t = none ∨ t = some "") :
    parse_text pred ml t = HttpResp.badRequest "No text provided"
  ∧ parse_text pred ml t = parse_text pred' ml t := by
  rcases h with h | h <;> subst h <;> exact ⟨rfl, rfl⟩

/-- Witness for claim C8 at a missing text field. -/
theorem parse_text_rejects_empty_witness :
    parse_text rule_based_parse true none
      = HttpResp.badRequest "No text provided" :=
  (parse_text_rejects_empty rule_based_parse rule_based_parse true none
    (Or.inl rfl)).1

/-! ### Lemmas about decimal-count inputs (claim C10) -/

theorem string_data_mk (cs : List Char) : (String.mk cs).data = cs := rfl

theorem digitChar_isDigit {d : Nat} (h : d < 10) : (digitChar d).isDigit = true := by
  interval_cases d <;> decide

theorem lowerChar_digitChar {d : Nat} (h : d < 10) :
    lowerChar (digitChar d) = digitChar d := by
  interval_cases d <;> decide

theorem charVal_digitChar {d : Nat} (h : d < 10) : charVal (digitChar d) = d := by
  interval_cases d <;> decide

theorem digitChars_all_digit (n : Nat) : ∀ c ∈ digitChars n, c.isDigit = true := by
  intro c hc
  simp only [digitChars, List.mem_map, List.mem_reverse] at hc
  obtain ⟨d, hd, rfl⟩ := hc
  exact digitChar_isDigit (Nat.digits_lt_base (by norm_num) hd)

theorem foldl_digitChar (L : List Nat) :
    ∀ (a : Nat), (∀ d ∈ L, d < 10) →
      L.foldl (fun a d => 10 * a + charVal (digitChar d)) a
        = L.foldl (fun a d => 10 * a + d) a := by
  induction L with
  | nil => intro a _; rfl
  | cons d L ih =>
    intro a h
    simp only [List.foldl_cons]
    rw [charVal_digitChar (h d (List.mem_cons_self d L))]
    exact ih _ (fun x hx => h x (List.mem_cons_of_mem d hx))

theorem foldr_base10 (L : List Nat) :
    L.foldr (fun d a => 10 * a + d) 0 = Nat.ofDigits 10 L := by
  induction L with
  | nil => rfl
  | cons d L ih =>
    rw [List.foldr_cons, ih, Nat.ofDigits_cons]
    ring

theorem digitsVal_digitChars (n : Nat) : digitsVal (digitChars n) = n := by
  unfold digitsVal digitChars
  rw [List.foldl_map,
    foldl_digitChar _ 0 (fun d hd =>
      Nat.digits_lt_base (by norm_num) (List.mem_reverse.mp hd)),
    List.foldl_reverse, foldr_base10, Nat.ofDigits_digits]

theorem digit_startsWith_false {p c : Char} (ps cs : List Char)
    (hp : p.isDigit = false) (hc : c.isDigit = true) :
    startsWith (p :: ps) (c :: cs) = false := by
  have hne : (p == c) = false := by
    rw [beq_eq_false_iff_ne]
    intro h
    rw [h] at hp
    rw [hp] at hc
    exact Bool.false_ne_true hc
  show (p == c && startsWith ps cs) = false
  rw [hne, Bool.false_and]

theorem scanAny_digit_skip (f : List Char → Bool)
    (hf : ∀ c cs, c.isDigit = true → f (c :: cs) = false) :
    ∀ (D rest : List Char), (∀ c ∈ D, c.isDigit = true) →
      scanAny f (D ++ rest) = scanAny f rest := by
  intro D
  induction D with
  | nil => intro rest _; rfl
  | cons d D ih =>
    intro rest hD
    show (f (d :: (D ++ rest)) || scanAny f (D ++ rest)) = scanAny f rest
    rw [hf d _ (hD d (List.mem_cons_self d D)), Bool.false_or]
    exact ih rest (fun c hc => hD c (List.mem_cons_of_mem d hc))

theorem containsSub_digit_skip {p : Char} (ps : List Char) (hp : p.isDigit = false)
    (D rest : List Char) (hD : ∀ c ∈ D, c.isDigit = true) :
    containsSub (p :: ps) (D ++ rest) = containsSub (p :: ps) rest :=
  scanAny_digit_skip _ (fun _ cs hc => digit_startsWith_false ps cs hp hc) D rest hD

theorem containsSub_str_digit_skip (s : String) (hne : s.data ≠ [])
    (hhead : headIs Char.isDigit s.data = false)
    (D rest : List Char) (hD : ∀ c ∈ D, c.isDigit = true) :
    containsSub s.data (D ++ rest) = containsSub s.data rest := by
  cases hsd : s.data with
  | nil => exact absurd hsd hne
  | cons p ps =>
    have hp : p.isDigit = false := by rw [hsd] at hhead; exact hhead
    exact containsSub_digit_skip ps hp D rest hD

theorem tryAndAAt_digit (c : Char) (cs : List Char) (hc : c.isDigit = true) :
    tryAndAAt (c :: cs) = false := by
  unfold tryAndAAt
  rw [digit_startsWith_false _ _ (by decide) hc, Bool.false_and]

theorem tryWithAt_digit (c : Char) (cs : List Char) (hc : c.isDigit = true) :
    tryWithAt (c :: cs) = false := by
  unfold tryWithAt
  rw [digit_startsWith_false _ _ (by decide) hc, Bool.false_and]

theorem andAPat_digit_skip (D rest : List Char) (hD : ∀ c ∈ D, c.isDigit = true) :
    andAPat (D ++ rest) = andAPat rest :=
  scanAny_digit_skip _ tryAndAAt_digit D rest hD

theorem withPat_digit_skip (D rest : List Char) (hD : ∀ c ∈ D, c.isDigit = true) :
    withPat (D ++ rest) = withPat rest :=
  scanAny_digit_skip _ tryWithAt_digit D rest hD

theorem headIs_digit_take (rest : List Char) (h : headIs Char.isDigit rest = false) :
    rest.takeWhile Char.isDigit = [] := by
  cases rest with
  | nil => rfl
  | cons r rs =>
    have hr : r.isDigit = false := h
    simp [List.takeWhile_cons, hr]

theorem headIs_digit_drop (rest : List Char) (h : headIs Char.isDigit rest = false) :
    rest.dropWhile Char.isDigit = rest := by
  cases rest with
  | nil => rfl
  | cons r rs =>
    have hr : r.isDigit = false := h
    simp [List.dropWhile_cons, hr]

theorem countPlural_digit_skip :
    ∀ (D rest : List Char), (∀ c ∈ D, c.isDigit = true) →
      headIs Char.isDigit rest = false →
      afterCountDigits rest = false →
      countPluralPat (D ++ rest) = countPluralPat rest := by
  intro D
  induction D with
  | nil => intro rest _ _ _; rfl
  | cons d D ih =>
    intro rest hD hh ha
    have hDtail : ∀ c ∈ D, c.isDigit = true :=
      fun c hc => hD c (List.mem_cons_of_mem d hc)
    show (tryCountPluralAt (d :: (D ++ rest)) || scanAny tryCountPluralAt (D ++ rest))
        = countPluralPat rest
    have ht : ((d :: D) ++ rest).takeWhile Char.isDigit = d :: D := by
      rw [List.takeWhile_append_of_pos hD, headIs_digit_take rest hh, List.append_nil]
    have hd2 : ((d :: D) ++ rest).dropWhile Char.isDigit = rest := by
      rw [List.dropWhile_append_of_pos hD, headIs_digit_drop rest hh]
    have h1 : tryCountPluralAt (d :: (D ++ rest)) = false := by
      unfold tryCountPluralAt
      rw [show d :: (D ++ rest) = (d :: D) ++ rest from rfl, ht, hd2, ha,
        Bool.and_false]
    rw [h1, Bool.false_or]
    exact ih rest hDtail hh ha

theorem quantityMatch_digits (d : Char) (Dt rest : List Char) (w : String)
    (hD : ∀ c ∈ d :: Dt, c.isDigit = true)
    (hh : headIs Char.isDigit rest = false)
    (hsp : (rest.takeWhile isSpacePy).isEmpty = false)
    (hw : firstNoun (rest.dropWhile isSpacePy) = some w) :
    quantityMatch ((d :: Dt) ++ rest) = some (digitsVal (d :: Dt), w) := by
  have ht : ((d :: Dt) ++ rest).takeWhile Char.isDigit = d :: Dt := by
    rw [List.takeWhile_append_of_pos hD, headIs_digit_take rest hh, List.append_nil]
  have hd2 : ((d :: Dt) ++ rest).dropWhile Char.isDigit = rest := by
    rw [List.dropWhile_append_of_pos hD, headIs_digit_drop rest hh]
  have h1 : tryQuantityAt ((d :: Dt) ++ rest) = some (digitsVal (d :: Dt), w) := by
    simp only [tryQuantityAt, ht, hd2]
    rw [if_neg (by simp), if_neg (by simp [hsp]), hw]
    rfl
  rw [List.cons_append] at h1
  show scanFirst tryQuantityAt (d :: (Dt ++ rest)) = some (digitsVal (d :: Dt), w)
  unfold scanFirst
  rw [h1]

theorem lowerStr_countNounInput (n : Nat) (noun : String)
    (hnoun : noun.data.map lowerChar = noun.data) :
    lowerStr (countNounInput n noun) = countNounInput n noun := by
  have h1 : (digitChars n).map lowerChar = digitChars n := by
    unfold digitChars
    rw [List.map_map]
    apply List.map_congr_left
    intro d hd
    exact lowerChar_digitChar (Nat.digits_lt_base (by norm_num) (List.mem_reverse.mp hd))
  show String.mk ((digitChars n ++ ' ' :: noun.data).map lowerChar) = _
  rw [List.map_append, h1, List.map_cons, show lowerChar ' ' = ' ' from by decide,
    hnoun]
  rfl

theorem countNoun_core (pred : Pred) (n : Nat) (noun base : String) (hn : 0 < n)
    (hlow : noun.data.map lowerChar = noun.data)
    (hafter : afterCountDigits (' ' :: noun.data) = false)
    (hfn : firstNoun (List.dropWhile isSpacePy (' ' :: noun.data)) = some base)
    (hmulti : is_multi_object (String.mk (' ' :: noun.data)) = false)
    (hand : containsSub " and ".data (' ' :: noun.data) = false) :
    is_multi_object (countNounInput n noun) = false
  ∧ parse pred (countNounInput n noun) = [pred (countNounInput n noun)]
  ∧ quantityMatch (countNounInput n noun).data = some (n, base)
  ∧ (extract_multiple_objects pred (countNounInput n noun)).length = min n 10 := by
  have hD : ∀ c ∈ digitChars n, c.isDigit = true := digitChars_all_digit n
  have hDne : digitChars n ≠ [] := by
    unfold digitChars
    intro h
    exact Nat.digits_ne_nil_iff_ne_zero.mpr (Nat.pos_iff_ne_zero.mp hn)
      (by simpa using h)
  obtain ⟨d, Dt, hDeq⟩ : ∃ d Dt, digitChars n = d :: Dt := by
    cases hE : digitChars n with
    | nil => exact absurd hE hDne
    | cons a b => exact ⟨a, b, rfl⟩
  have hh : headIs Char.isDigit (' ' :: noun.data) = false := rfl
  have hsp : ((' ' :: noun.data).takeWhile isSpacePy).isEmpty = false := by
    simp [List.takeWhile_cons, show isSpacePy ' ' = true from rfl]
  obtain ⟨hcp, hap, hwp, hst, hmu, hse, hab, hbe, hnx, hot⟩ :
      countPluralPat (' ' :: noun.data) = false
    ∧ andAPat (' ' :: noun.data) = false
    ∧ withPat (' ' :: noun.data) = false
    ∧ containsSub "stack".data (' ' :: noun.data) = false
    ∧ containsSub "multiple".data (' ' :: noun.data) = false
    ∧ containsSub "several".data (' ' :: noun.data) = false
    ∧ containsSub "above".data (' ' :: noun.data) = false
    ∧ containsSub "below".data (' ' :: noun.data) = false
    ∧ containsSub "next to".data (' ' :: noun.data) = false
    ∧ containsSub "on top".data (' ' :: noun.data) = false := by
    have h := hmulti
    unfold is_multi_object at h
    rw [string_data_mk] at h
    simpa only [Bool.or_eq_false_iff, and_assoc] using h
  have hm1 : is_multi_object (countNounInput n noun) = false := by
    show (countPluralPat (digitChars n ++ ' ' :: noun.data)
      || andAPat (digitChars n ++ ' ' :: noun.data)
      || withPat (digitChars n ++ ' ' :: noun.data)
      || containsSub "stack".data (digitChars n ++ ' ' :: noun.data)
      || containsSub "multiple".data (digitChars n ++ ' ' :: noun.data)
      || containsSub "several".data (digitChars n ++ ' ' :: noun.data)
      || containsSub "above".data (digitChars n ++ ' ' :: noun.data)
      || containsSub "below".data (digitChars n ++ ' ' :: noun.data)
      || containsSub "next to".data (digitChars n ++ ' ' :: noun.data)
      || containsSub "on top".data (digitChars n ++ ' ' :: noun.data)) = false
    rw [countPlural_digit_skip _ _ hD hh hafter,
      andAPat_digit_skip _ _ hD,
      withPat_digit_skip _ _ hD,
      containsSub_str_digit_skip "stack" (by decide) (by decide) _ _ hD,
      containsSub_str_digit_skip "multiple" (by decide) (by decide) _ _ hD,
      containsSub_str_digit_skip "several" (by decide) (by decide) _ _ hD,
      containsSub_str_digit_skip "above" (by decide) (by decide) _ _ hD,
      containsSub_str_digit_skip "below" (by decide) (by decide) _ _ hD,
      containsSub_str_digit_skip "next to" (by decide) (by decide) _ _ hD,
      containsSub_str_digit_skip "on top" (by decide) (by decide) _ _ hD,
      hcp, hap, hwp, hst, hmu, hse, hab, hbe, hnx, hot]
    rfl
  have hD' : ∀ c ∈ d :: Dt, c.isDigit = true := hDeq ▸ hD
  have hq : quantityMatch ((countNounInput n noun).data) = some (n, base) := by
    show quantityMatch (digitChars n ++ ' ' :: noun.data) = some (n, base)
    rw [hDeq, quantityMatch_digits d Dt (' ' :: noun.data) base hD' rfl hsp hfn,
      ← hDeq, digitsVal_digitChars]
  have hm2 : parse pred (countNounInput n noun) = [pred (countNounInput n noun)] := by
    unfold parse
    rw [lowerStr_countNounInput n noun hlow, hm1]
    simp
  refine ⟨hm1, hm2, hq, ?_⟩
  have hand' : containsSub " and ".data ((countNounInput n noun).data) = false := by
    show containsSub " and ".data (digitChars n ++ ' ' :: noun.data) = false
    rw [containsSub_str_digit_skip " and " (by decide) (by decide) _ _ hD]
    exact hand
  rw [extract_quantity_eq pred (countNounInput n noun) n base hand' hq,
    List.length_map, List.length_range]

/-- Claim C10: the multi-object count indicator recognizes only the plural
nouns spheres, cubes, cylinders, cones.  For every input consisting of a
positive count followed by `balls`, `boxes`, `tubes` or `torus` (e.g.
`"3 balls"`), no multi-object indicator matches, so the parser returns
exactly one object — even though the quantity extraction rule accepts those
nouns and would have produced `min count 10` objects had it been reached. -/
theorem count_unlisted_plural_single (pred : Pred) (n : Nat) (noun base : String)
    (hn : 0 < n)
    (hnb : (noun, base) ∈
      [("balls", "ball"), ("boxes", "box"), ("tubes", "tube"),
       ("torus", "torus")]) :
    is_multi_object (countNounInput n noun) = false
  ∧ parse pred (countNounInput n noun) = [pred (countNounInput n noun)]
  ∧ quantityMatch ((countNounInput n noun).data) = some (n, base)
  ∧ (extract_multiple_objects pred (countNounInput n noun)).length = min n 10 := by
  simp only [List.mem_cons, List.not_mem_nil, or_false] at hnb
  rcases hnb with h | h | h | h <;>
    (injection h with h1 h2; subst h1; subst h2;
     exact countNoun_core pred n _ _ hn (by decide) (by decide) (by decide)
       (by decide) (by decide))

/-- Witness for claim C10 at the input `"3 balls"`. -/
theorem count_unlisted_plural_single_witness :
    (0 < 3
      ∧ ("balls", "ball") ∈
          [("balls", "ball"), ("boxes", "box"), ("tubes", "tube"),
           ("torus", "torus")])
  ∧ parse rule_based_parse (countNounInput 3 "balls")
      = [rule_based_parse (countNounInput 3 "balls")] :=
  ⟨⟨by norm_num, by decide⟩,
   (count_unlisted_plural_single rule_based_parse 3 "balls" "ball"
     (by norm_num) (by decide)).2.1⟩

/-- Claim C9: within a session the training corpus never shrinks — a retrain
without an example leaves it unchanged, a retrain with an example appends
exactly that one example, no endpoint removes examples, and across any
sequence of requests the corpus only grows, its old contents staying in
place. -/
theorem corpus_append_only (corpus : List ShapeExample)
    (r : Request) (reqs : List Request) :
    retrainCorpus corpus none = corpus
  ∧ (∀ e, retrainCorpus corpus (some e) = corpus ++ [e])
  ∧ corpus.length ≤ (corpusStep corpus r).length
  ∧ (corpusStep corpus r).take corpus.length = corpus
  ∧ corpus.length ≤ (reqs.foldl corpusStep corpus).length := by
  refine ⟨rfl, fun e => rfl, corpusStep_length_le corpus r, ?_, ?_⟩
  · cases r with
    | parseTextReq t => exact List.take_length corpus
    | healthReq => exact List.take_length corpus
    | retrainReq ex' =>
      cases ex' with
      | none => exact List.take_length corpus
      | some e => exact List.take_left corpus [e]
  · induction reqs generalizing corpus with
    | nil => exact le_refl _
    | cons r' rs ih =>
      exact le_trans (corpusStep_length_le corpus r') (ih (corpusStep corpus r'))

end MLBackend
